import Mathlib

/-!
Verification of the preprocessing pipeline in `scripts/preprocess_data.py`
(US-Accidents visualization project).

The pipeline is: load a CSV table, derive time features, impute missing
numeric values with column medians, categorize free-text weather strings,
build aggregate tables, and persist the (possibly sampled) main table.

Shallow embedding conventions:
* a table is a `List` of row structures; nullable cells are `Option ℚ`
  (`none` models a pandas `NaN`) and nullable text is `Option String`;
* dataframe-level column presence (`'Temperature(F)' in df.columns`, etc.)
  is a `Bool` flag on the `Df` structure;
* `Start_Time` is represented by its date as a count of days since
  1970-01-01 (a Thursday), which determines `dt.dayofweek` (Monday = 0);
  the hour/month/day columns and `Duration_Minutes` are not derived here
  because no verified claim mentions them;
* pandas `DataFrame.sample(n, random_state=seed)` is modelled as taking
  the first `n` elements of a deterministic seed-indexed permutation of
  the rows (an LCG-driven Fisher-Yates selection); the exact pseudorandom
  stream of numpy is not reproduced, only that the selection is a
  length-preserving permutation determined entirely by the seed;
* the filesystem is a `Bool` (`fileExists`) plus a byte size `Nat`, and
  writing a CSV file is modelled by returning the file name with the rows
  that would be written.
-/

/-- Model of Python's `t in s` substring test, on the
character lists of the two strings: `t` occurs contiguously in `s`. -/
def containsSub : List Char → List Char → Bool
  | [], t => t.isEmpty
  | c :: rest, t => t.isPrefixOf (c :: rest) || containsSub rest t

/-- Models Python `term in condition` for strings. -/
def termInCond (condition term : String) : Bool :=
  containsSub condition.data term.data

/-- Models Python `condition.lower()`: character-wise lowercasing (the
weather keywords are all ASCII, for which this agrees with `str.lower`). -/
def lowerStr (s : String) : String :=
  ⟨s.data.map Char.toLower⟩

/-- The `weather_mapping` dict of `preprocess_data`, in its (insertion-
preserved) iteration order. -/
def weather_mapping : List (String × List String) :=
  [("clear", ["clear", "fair", "sunny"]),
   ("cloudy", ["cloudy", "overcast", "partly cloudy"]),
   ("rain", ["rain", "drizzle", "shower"]),
   ("snow", ["snow", "sleet", "ice", "freezing"]),
   ("fog", ["fog", "haze", "smoke"]),
   ("thunderstorm", ["thunderstorm", "storm"]),
   ("windy", ["windy", "breezy"])]

/-- The `for category, terms in weather_mapping.items()` loop body of
`map_weather`: return the first category one of whose terms occurs in the
lowercased condition, else fall through to `"other"`. -/
def matchCategories : List (String × List String) → String → String
  | [], _ => "other"
  | (cat, terms) :: rest, cl =>
      if terms.any (fun t => termInCond cl t) then cat
      else matchCategories rest cl

/-- The `map_weather` inner function of `preprocess_data`: `NaN` maps to
`"unknown"`, otherwise the condition is lowercased and scanned against
`weather_mapping` in table order. -/
def map_weather (condition : Option String) : String :=
  match condition with
  | none => "unknown"
  | some c => matchCategories weather_mapping (lowerStr c)

/-- The weather mapping as the SPEC describes it (for comparison with the
source embedding `map_weather`): missing text maps to `"unknown"`;
otherwise the input is lowercased and the first table entry one of whose
keywords occurs as a substring gives the category, defaulting to
`"other"` when no keyword matches. -/
def map_weather_spec (condition : Option String) : String :=
  match condition with
  | none => "unknown"
  | some c =>
      match weather_mapping.find?
          (fun p => p.2.any (fun t => termInCond (lowerStr c) t)) with
      | some p => p.1
      | none => "other"

theorem matchCategories_eq_find (table : List (String × List String))
    (cl : String) :
    matchCategories table cl =
      match table.find? (fun p => p.2.any (fun t => termInCond cl t)) with
      | some p => p.1
      | none => "other" := by
  induction table with
  | nil => rfl
  | cons hd tl ih =>
      obtain ⟨cat, terms⟩ := hd
      by_cases h : (terms.any (fun t => termInCond cl t)) = true
      · simp [matchCategories, h, List.find?_cons_of_pos]
      · rw [Bool.not_eq_true] at h
        simp [matchCategories, h, List.find?_cons_of_neg, ih]

/-! Section: Data model -/

/-- A raw input row (`AccidentRecord`), restricted to the columns the
verified claims mention. `Option ℚ` cells model nullable numeric columns
(`none` = `NaN`); `Start_Time` is represented by its date as days since
1970-01-01. The schema columns `ID`, `City`, `State` are non-nullable.
`End_Time`, `Hour`, `Month`, `Day`, `Duration_Minutes` are omitted: no
claim mentions them. -/
structure Row where
  id : String
  state : String
  city : String
  severity : Option ℚ
  startLat : Option ℚ
  startLng : Option ℚ
  temp : Option ℚ
  vis : Option ℚ
  startDays : Nat
  weatherCond : Option String
deriving DecidableEq, Repr

/-- A dataframe: rows plus the column-presence facts the script tests
with `col in df.columns`. -/
structure Df where
  rows : List Row
  hasTemp : Bool
  hasWeather : Bool
  hasCity : Bool
deriving DecidableEq, Repr

/-- An enriched row: the raw columns plus the derived columns
`DayOfWeek`, `Weekend` and (when the weather column is present)
`Weather_Category`. -/
structure ERow where
  id : String
  state : String
  city : String
  severity : Option ℚ
  startLat : Option ℚ
  startLng : Option ℚ
  temp : Option ℚ
  vis : Option ℚ
  startDays : Nat
  weatherCond : Option String
  dayOfWeek : Nat
  weekend : Nat
  weatherCat : Option String
deriving DecidableEq, Repr

/-! Section: Transformer -/

/-- Models `df['DayOfWeek'] = df['Start_Time'].dt.dayofweek`: pandas dayofweek
with Monday = 0; 1970-01-01 was a Thursday (= 3). -/
def dayOfWeekOfDays (days : Nat) : Nat :=
  (days + 3) % 7

/-- Models `df['Weekend'] = df['DayOfWeek'].apply(lambda x: 1 if x >= 5 else 0)`. -/
def weekendFlag (dow : Nat) : Nat :=
  if 5 ≤ dow then 1 else 0

/-- The time-feature step of `preprocess_data` applied to one row
(`Weather_Category` is not yet assigned at this point). -/
def enrichTime (r : Row) : ERow :=
  { id := r.id, state := r.state, city := r.city, severity := r.severity,
    startLat := r.startLat, startLng := r.startLng, temp := r.temp,
    vis := r.vis, startDays := r.startDays, weatherCond := r.weatherCond,
    dayOfWeek := dayOfWeekOfDays r.startDays,
    weekend := weekendFlag (dayOfWeekOfDays r.startDays),
    weatherCat := none }

/-- Models `Series.median()` with pandas defaults: `NaN`-free values are sorted;
the median is the middle value (odd count) or the mean of the two middle
values (even count); an empty series has a `NaN` median. -/
def median (xs : List ℚ) : Option ℚ :=
  let s := List.insertionSort (fun a b : ℚ => a ≤ b) xs
  if s.length = 0 then none
  else if s.length % 2 = 1 then some (s.getD (s.length / 2) 0)
  else some ((s.getD (s.length / 2 - 1) 0 + s.getD (s.length / 2) 0) / 2)

/-- The median of a nullable column (pandas skips `NaN` values). -/
def colMedian (vs : List (Option ℚ)) : Option ℚ :=
  median (vs.filterMap id)

/-- Models `fillna` on one cell: a present value is kept, a missing one is
replaced by the fill value (itself possibly `NaN`). -/
def fillCell (v m : Option ℚ) : Option ℚ :=
  match v with
  | some x => some x
  | none => m

/-- Models `df[col] = df[col].fillna(df[col].median())` viewed on the column. -/
def fillColumn (vs : List (Option ℚ)) : List (Option ℚ) :=
  vs.map (fun v => fillCell v (colMedian vs))

/-- One iteration of the imputation loop: fill the column read by `get`
(written back by `set`) with its own median. -/
def fillVia (get : ERow → Option ℚ) (set : ERow → Option ℚ → ERow)
    (rows : List ERow) : List ERow :=
  let m := colMedian (rows.map get)
  rows.map (fun r => set r (fillCell (get r) m))

def fillSeverity : List ERow → List ERow :=
  fillVia (fun r => r.severity) (fun r v => { r with severity := v })

def fillLat : List ERow → List ERow :=
  fillVia (fun r => r.startLat) (fun r v => { r with startLat := v })

def fillLng : List ERow → List ERow :=
  fillVia (fun r => r.startLng) (fun r v => { r with startLng := v })

def fillTemp : List ERow → List ERow :=
  fillVia (fun r => r.temp) (fun r v => { r with temp := v })

def fillVis : List ERow → List ERow :=
  fillVia (fun r => r.vis) (fun r v => { r with vis := v })

/-- The `for col in numerical_cols` imputation loop:
`numerical_cols = ['Severity', 'Start_Lat', 'Start_Lng']`, extended by
`['Temperature(F)', 'Visibility(mi)']` when the temperature column is
present. -/
def imputeAll (hasTemp : Bool) (rows : List ERow) : List ERow :=
  let r3 := fillLng (fillLat (fillSeverity rows))
  if hasTemp then fillVis (fillTemp r3) else r3

/-- Models `df['Weather_Category'] = df['Weather_Condition'].apply(map_weather)`,
executed only when the weather column is present. -/
def addWeatherCat (hasWeather : Bool) (rows : List ERow) : List ERow :=
  if hasWeather then
    rows.map (fun r => { r with weatherCat := some (map_weather r.weatherCond) })
  else rows

/-- The transformation phase of `preprocess_data` on the table: time
features, then median imputation, then weather categorization (the
source's statement order). -/
def preprocessTable (df : Df) : List ERow :=
  addWeatherCat df.hasWeather (imputeAll df.hasTemp (df.rows.map enrichTime))

/-! Section: Aggregator -/

/-- Average of a list of rationals (`Series.mean()` over the non-`NaN`
values; the all-`NaN` edge case returns the junk value `0/0 = 0`, which no
claim depends on). -/
def avgQ (vs : List ℚ) : ℚ :=
  vs.sum / (vs.length : ℚ)

/-- The `state_data` aggregate: per-state accident count merged with per-state mean
severity (`groupby('State').size()` and `groupby('State')['Severity'].mean()`,
merged on the state key). -/
def stateData (rows : List ERow) : List (String × Nat × ℚ) :=
  ((rows.map (fun r => r.state)).dedup).map (fun s =>
    (s, (rows.map (fun r => r.state)).count s,
     avgQ ((rows.filter (fun r => r.state == s)).filterMap (fun r => r.severity))))

/-- The `(State, City)` key of the city aggregate. -/
def cityKey (r : ERow) : String × String :=
  (r.state, r.city)

/-- Descending-by-count order used by
`sort_values('Accident_Count', ascending=False)`. -/
def countDesc (a b : (String × String) × Nat) : Prop :=
  b.2 ≤ a.2

instance : DecidableRel countDesc := fun a b => Nat.decLe b.2 a.2

instance : IsTotal ((String × String) × Nat) countDesc :=
  ⟨fun a b => Nat.le_total b.2 a.2⟩

instance : IsTrans ((String × String) × Nat) countDesc :=
  ⟨fun _ _ _ h1 h2 => Nat.le_trans h2 h1⟩

/-- The `city_data` aggregate: per-`(State, City)` accident count, sorted descending by
count, truncated to the top 50; the empty table when the city column is
absent. -/
def cityData (hasCity : Bool) (rows : List ERow) : List ((String × String) × Nat) :=
  if hasCity then
    (List.insertionSort countDesc
      (((rows.map cityKey).dedup).map
        (fun k => (k, (rows.map cityKey).count k)))).take 50
  else []

/-! Section: Loader, sampler and writer -/

/-- A linear congruential step: the stand-in pseudorandom stream for the
fixed-seed sampling (numpy's generator is not reproduced; every claim uses
only that the stream is a deterministic function of the seed). -/
def lcg (s : Nat) : Nat :=
  (1103515245 * s + 12345) % 2 ^ 31

/-- Fisher-Yates-style selection driven by `lcg`, with fuel for structural
termination: repeatedly extract the element at the pseudorandom index. -/
def shuffleGo {α : Type} : Nat → Nat → List α → List α
  | _, _, [] => []
  | 0, _, l => l
  | fuel + 1, s, x :: xs =>
      let l := x :: xs
      let i := s % l.length
      l.getD i x :: shuffleGo fuel (lcg s) (l.eraseIdx i)

/-- The seed-determined permutation of a list. -/
def shuffle {α : Type} (seed : Nat) (l : List α) : List α :=
  shuffleGo l.length seed l

/-- Models `DataFrame.sample(n=n, random_state=seed)`: a fixed-seed pseudorandom
selection of `n` rows without replacement (pandas raises when
`n > len(df)`; both call sites guard against that). -/
def sampleN {α : Type} (seed n : Nat) (l : List α) : List α :=
  (shuffle seed l).take n

/-- Models `DataFrame.sample(frac=0.1, random_state=42)` of the loader: a
fixed-seed selection of `round(0.1 * len(df))` rows (the rounding here is
half-up rather than Python's half-even; no claim depends on this count). -/
def sampleFracTenth (l : List Row) : List Row :=
  sampleN 42 ((l.length + 5) / 10) l

/-- The error message of `load_raw_data` for a missing input file. -/
def notFoundMsg : String :=
  "Dataset file not found: /Users/adityapatil/Desktop/US-Accidents-Visualization_Project/scripts/data/raw/US_Accidents_March23.csv. Please manually download the dataset from Kaggle and place it in the specified path."

/-- Model of `load_raw_data`: raises `FileNotFoundError` when the configured input
path does not exist; otherwise reads the file, taking a fixed-seed 10%
sample when the file size exceeds `1e9` bytes (the column restriction of
the large branch is invisible here because `Row` already carries exactly
the selected columns). -/
def load_raw_data (fileExists : Bool) (fileSize : Nat) (raw : List Row) :
    Except String (List Row) :=
  if fileExists = false then Except.error notFoundMsg
  else Except.ok (if 10 ^ 9 < fileSize then sampleFracTenth raw else raw)

/-- Model of `save_processed_data` on the main table: a fixed-seed sample of
exactly 100000 rows is written as `accidents_sample.csv` when the table
exceeds 100000 rows, otherwise the full table is written as
`accidents_processed.csv`. The result is the written file name with the
written rows. -/
def save_processed_data (main : List ERow) : String × List ERow :=
  if 100000 < main.length then
    ("accidents_sample.csv", sampleN 42 100000 main)
  else ("accidents_processed.csv", main)

/-- The `main()` pipeline: load, preprocess, save; an error from the
loader is not caught anywhere, so it propagates unchanged to the process
boundary (no retry). -/
def mainPipeline (fileExists : Bool) (fileSize : Nat) (df : Df) :
    Except String (String × List ERow) :=
  match load_raw_data fileExists fileSize df.rows with
  | Except.error e => Except.error e
  | Except.ok rows =>
      Except.ok (save_processed_data (preprocessTable { df with rows := rows }))

/-! Section: Helper lemmas -/

theorem fillVia_map_proj {β : Type} (g : ERow → Option ℚ)
    (s : ERow → Option ℚ → ERow) (p : ERow → β)
    (h : ∀ r v, p (s r v) = p r) (rows : List ERow) :
    (fillVia g s rows).map p = rows.map p := by
  unfold fillVia
  rw [List.map_map]
  exact List.map_congr_left (fun r _ => h r _)

theorem fillVia_map_self (g : ERow → Option ℚ) (s : ERow → Option ℚ → ERow)
    (h : ∀ r v, g (s r v) = v) (rows : List ERow) :
    (fillVia g s rows).map g = fillColumn (rows.map g) := by
  unfold fillVia fillColumn
  rw [List.map_map, List.map_map]
  exact List.map_congr_left (fun r _ => h r _)

theorem addWeatherCat_map_proj {β : Type} (b : Bool) (p : ERow → β)
    (h : ∀ r v, p { r with weatherCat := v } = p r) (rows : List ERow) :
    (addWeatherCat b rows).map p = rows.map p := by
  cases b
  · rfl
  · unfold addWeatherCat
    rw [if_pos rfl, List.map_map]
    exact List.map_congr_left (fun r _ => h r _)

theorem imputeAll_map_proj {β : Type} (b : Bool) (p : ERow → β)
    (hs : ∀ r v, p { r with severity := v } = p r)
    (hla : ∀ r v, p { r with startLat := v } = p r)
    (hln : ∀ r v, p { r with startLng := v } = p r)
    (ht : ∀ r v, p { r with temp := v } = p r)
    (hv : ∀ r v, p { r with vis := v } = p r)
    (rows : List ERow) :
    (imputeAll b rows).map p = rows.map p := by
  unfold imputeAll fillSeverity fillLat fillLng fillTemp fillVis
  cases b
  · rw [if_neg (by simp), fillVia_map_proj _ _ _ hln, fillVia_map_proj _ _ _ hla,
      fillVia_map_proj _ _ _ hs]
  · rw [if_pos rfl, fillVia_map_proj _ _ _ hv, fillVia_map_proj _ _ _ ht,
      fillVia_map_proj _ _ _ hln, fillVia_map_proj _ _ _ hla,
      fillVia_map_proj _ _ _ hs]

theorem fillVia_length (g : ERow → Option ℚ) (s : ERow → Option ℚ → ERow)
    (rows : List ERow) : (fillVia g s rows).length = rows.length := by
  unfold fillVia
  exact List.length_map _ _

theorem imputeAll_length (b : Bool) (rows : List ERow) :
    (imputeAll b rows).length = rows.length := by
  unfold imputeAll fillSeverity fillLat fillLng fillTemp fillVis
  cases b
  · rw [if_neg (by simp), fillVia_length, fillVia_length, fillVia_length]
  · rw [if_pos rfl, fillVia_length, fillVia_length, fillVia_length,
      fillVia_length, fillVia_length]

theorem addWeatherCat_length (b : Bool) (rows : List ERow) :
    (addWeatherCat b rows).length = rows.length := by
  cases b
  · rfl
  · unfold addWeatherCat
    rw [if_pos rfl]
    exact List.length_map _ _

theorem preprocessTable_length (df : Df) :
    (preprocessTable df).length = df.rows.length := by
  unfold preprocessTable
  rw [addWeatherCat_length, imputeAll_length, List.length_map]

/-! Section: Claim theorems: aggregates -/

/-- C4: for every enriched table, the per-state accident counts in the
state aggregate sum to the total number of rows of the table. -/
theorem stateData_counts_sum_eq_length (rows : List ERow) :
    ((stateData rows).map (fun t => t.2.1)).sum = rows.length := by
  unfold stateData
  rw [List.map_map]
  have hcomp :
      ((fun t : String × Nat × ℚ => t.2.1) ∘ fun s =>
        (s, (rows.map (fun r => r.state)).count s,
         avgQ ((rows.filter (fun r => r.state == s)).filterMap
           (fun r => r.severity)))) =
        fun s => (rows.map (fun r => r.state)).count s := rfl
  rw [hcomp, List.sum_map_count_dedup_eq_length, List.length_map]

/-- C8: the city aggregate (present city column) is sorted descending by
accident count and has at most 50 rows; with the city column absent it is
empty. -/
theorem cityData_sorted_top50 (rows : List ERow) :
    List.Sorted countDesc (cityData true rows) ∧
    (cityData true rows).length ≤ 50 ∧
    cityData false rows = [] := by
  refine ⟨?_, ?_, rfl⟩
  · unfold cityData
    rw [if_pos rfl]
    exact List.Pairwise.sublist (List.take_sublist _ _)
      (List.sorted_insertionSort countDesc _)
  · unfold cityData
    rw [if_pos rfl]
    exact List.length_take_le _ _

/-! Section: Claim theorems: imputation -/

theorem median_perm (xs ys : List ℚ) (h : xs.Perm ys) : median xs = median ys := by
  unfold median
  have hsort : List.insertionSort (fun a b : ℚ => a ≤ b) xs =
      List.insertionSort (fun a b : ℚ => a ≤ b) ys :=
    List.eq_of_perm_of_sorted
      ((List.perm_insertionSort _ xs).trans
        (h.trans (List.perm_insertionSort _ ys).symm))
      (List.sorted_insertionSort _ xs) (List.sorted_insertionSort _ ys)
  rw [hsort]

theorem colMedian_perm (l₁ l₂ : List (Option ℚ)) (h : l₁.Perm l₂) :
    colMedian l₁ = colMedian l₂ :=
  median_perm _ _ (h.filterMap id)

theorem enrichTime_map_raw {β : Type} (p : ERow → β) (q : Row → β)
    (h : ∀ r, p (enrichTime r) = q r) (rows : List Row) :
    (rows.map enrichTime).map p = rows.map q := by
  rw [List.map_map]
  exact List.map_congr_left (fun r _ => h r)

theorem preprocess_map_temp (df : Df) (h : df.hasTemp = true) :
    (preprocessTable df).map (fun e => e.temp) =
      fillColumn (df.rows.map (fun r => r.temp)) := by
  unfold preprocessTable imputeAll fillSeverity fillLat fillLng fillTemp fillVis
  rw [h, if_pos rfl]
  rw [addWeatherCat_map_proj df.hasWeather (fun e => e.temp) (fun r v => rfl)]
  rw [fillVia_map_proj (fun r => r.vis) (fun r v => { r with vis := v }) (fun e => e.temp) (fun r v => rfl)]
  rw [fillVia_map_self (fun r => r.temp) (fun r v => { r with temp := v }) (fun r v => rfl)]
  rw [fillVia_map_proj (fun r => r.startLng) (fun r v => { r with startLng := v }) (fun e => e.temp) (fun r v => rfl)]
  rw [fillVia_map_proj (fun r => r.startLat) (fun r v => { r with startLat := v }) (fun e => e.temp) (fun r v => rfl)]
  rw [fillVia_map_proj (fun r => r.severity) (fun r v => { r with severity := v }) (fun e => e.temp) (fun r v => rfl)]
  rw [enrichTime_map_raw (fun e => e.temp) (fun r => r.temp) (fun r => rfl)]

theorem preprocess_map_vis (df : Df) (h : df.hasTemp = true) :
    (preprocessTable df).map (fun e => e.vis) =
      fillColumn (df.rows.map (fun r => r.vis)) := by
  unfold preprocessTable imputeAll fillSeverity fillLat fillLng fillTemp fillVis
  rw [h, if_pos rfl]
  rw [addWeatherCat_map_proj df.hasWeather (fun e => e.vis) (fun r v => rfl)]
  rw [fillVia_map_self (fun r => r.vis) (fun r v => { r with vis := v }) (fun r v => rfl)]
  rw [fillVia_map_proj (fun r => r.temp) (fun r v => { r with temp := v }) (fun e => e.vis) (fun r v => rfl)]
  rw [fillVia_map_proj (fun r => r.startLng) (fun r v => { r with startLng := v }) (fun e => e.vis) (fun r v => rfl)]
  rw [fillVia_map_proj (fun r => r.startLat) (fun r v => { r with startLat := v }) (fun e => e.vis) (fun r v => rfl)]
  rw [fillVia_map_proj (fun r => r.severity) (fun r v => { r with severity := v }) (fun e => e.vis) (fun r v => rfl)]
  rw [enrichTime_map_raw (fun e => e.vis) (fun r => r.vis) (fun r => rfl)]

theorem preprocess_map_severity (df : Df) (h : df.hasTemp = true) :
    (preprocessTable df).map (fun e => e.severity) =
      fillColumn (df.rows.map (fun r => r.severity)) := by
  unfold preprocessTable imputeAll fillSeverity fillLat fillLng fillTemp fillVis
  rw [h, if_pos rfl]
  rw [addWeatherCat_map_proj df.hasWeather (fun e => e.severity) (fun r v => rfl)]
  rw [fillVia_map_proj (fun r => r.vis) (fun r v => { r with vis := v }) (fun e => e.severity) (fun r v => rfl)]
  rw [fillVia_map_proj (fun r => r.temp) (fun r v => { r with temp := v }) (fun e => e.severity) (fun r v => rfl)]
  rw [fillVia_map_proj (fun r => r.startLng) (fun r v => { r with startLng := v }) (fun e => e.severity) (fun r v => rfl)]
  rw [fillVia_map_proj (fun r => r.startLat) (fun r v => { r with startLat := v }) (fun e => e.severity) (fun r v => rfl)]
  rw [fillVia_map_self (fun r => r.severity) (fun r v => { r with severity := v }) (fun r v => rfl)]
  rw [enrichTime_map_raw (fun e => e.severity) (fun r => r.severity) (fun r => rfl)]

theorem preprocess_map_startLat (df : Df) (h : df.hasTemp = true) :
    (preprocessTable df).map (fun e => e.startLat) =
      fillColumn (df.rows.map (fun r => r.startLat)) := by
  unfold preprocessTable imputeAll fillSeverity fillLat fillLng fillTemp fillVis
  rw [h, if_pos rfl]
  rw [addWeatherCat_map_proj df.hasWeather (fun e => e.startLat) (fun r v => rfl)]
  rw [fillVia_map_proj (fun r => r.vis) (fun r v => { r with vis := v }) (fun e => e.startLat) (fun r v => rfl)]
  rw [fillVia_map_proj (fun r => r.temp) (fun r v => { r with temp := v }) (fun e => e.startLat) (fun r v => rfl)]
  rw [fillVia_map_proj (fun r => r.startLng) (fun r v => { r with startLng := v }) (fun e => e.startLat) (fun r v => rfl)]
  rw [fillVia_map_self (fun r => r.startLat) (fun r v => { r with startLat := v }) (fun r v => rfl)]
  rw [fillVia_map_proj (fun r => r.severity) (fun r v => { r with severity := v }) (fun e => e.startLat) (fun r v => rfl)]
  rw [enrichTime_map_raw (fun e => e.startLat) (fun r => r.startLat) (fun r => rfl)]

theorem preprocess_map_startLng (df : Df) (h : df.hasTemp = true) :
    (preprocessTable df).map (fun e => e.startLng) =
      fillColumn (df.rows.map (fun r => r.startLng)) := by
  unfold preprocessTable imputeAll fillSeverity fillLat fillLng fillTemp fillVis
  rw [h, if_pos rfl]
  rw [addWeatherCat_map_proj df.hasWeather (fun e => e.startLng) (fun r v => rfl)]
  rw [fillVia_map_proj (fun r => r.vis) (fun r v => { r with vis := v }) (fun e => e.startLng) (fun r v => rfl)]
  rw [fillVia_map_proj (fun r => r.temp) (fun r v => { r with temp := v }) (fun e => e.startLng) (fun r v => rfl)]
  rw [fillVia_map_self (fun r => r.startLng) (fun r v => { r with startLng := v }) (fun r v => rfl)]
  rw [fillVia_map_proj (fun r => r.startLat) (fun r v => { r with startLat := v }) (fun e => e.startLng) (fun r v => rfl)]
  rw [fillVia_map_proj (fun r => r.severity) (fun r v => { r with severity := v }) (fun e => e.startLng) (fun r v => rfl)]
  rw [enrichTime_map_raw (fun e => e.startLng) (fun r => r.startLng) (fun r => rfl)]

/-- C5: with the temperature (and visibility) columns present, each of the
five imputed numeric columns of the preprocessed table equals the raw
column with its missing cells filled by that column's median, and the
column median is invariant under reordering the rows (so a missing
Severity value is replaced by the Severity median, not by anything
depending on input row order). -/
theorem imputed_columns_median_filled (df : Df) (h : df.hasTemp = true) :
    (preprocessTable df).map (fun e => e.temp) =
      fillColumn (df.rows.map (fun r => r.temp)) ∧
    (preprocessTable df).map (fun e => e.vis) =
      fillColumn (df.rows.map (fun r => r.vis)) ∧
    (preprocessTable df).map (fun e => e.severity) =
      fillColumn (df.rows.map (fun r => r.severity)) ∧
    (preprocessTable df).map (fun e => e.startLat) =
      fillColumn (df.rows.map (fun r => r.startLat)) ∧
    (preprocessTable df).map (fun e => e.startLng) =
      fillColumn (df.rows.map (fun r => r.startLng)) ∧
    ∀ (l₁ l₂ : List (Option ℚ)), l₁.Perm l₂ → colMedian l₁ = colMedian l₂ :=
  ⟨preprocess_map_temp df h, preprocess_map_vis df h,
   preprocess_map_severity df h, preprocess_map_startLat df h,
   preprocess_map_startLng df h, colMedian_perm⟩

/-- Witness for C5 at a concrete one-row dataframe with the temperature
column present. -/
theorem imputed_columns_median_filled_witness :
    (preprocessTable
        { rows := [{ id := "A-1", state := "OH", city := "Dayton",
                     severity := some 3, startLat := some 39,
                     startLng := some (-84), temp := none, vis := some 10,
                     startDays := 0, weatherCond := none }],
          hasTemp := true, hasWeather := false, hasCity := true }).map
        (fun e => e.temp) =
      fillColumn [(none : Option ℚ)] :=
  (imputed_columns_median_filled
    { rows := [{ id := "A-1", state := "OH", city := "Dayton",
                 severity := some 3, startLat := some 39,
                 startLng := some (-84), temp := none, vis := some 10,
                 startDays := 0, weatherCond := none }],
      hasTemp := true, hasWeather := false, hasCity := true } rfl).1

/-- C10: if every value of an imputed column is missing, the median is
itself missing and imputation leaves the column unchanged (all missing);
when the column has at least one present value, imputation leaves no
missing value. -/
theorem all_missing_column_stays_missing (vs : List (Option ℚ)) :
    ((∀ v ∈ vs, v = none) → fillColumn vs = vs) ∧
    ((∃ v ∈ vs, v.isSome = true) → ∀ x ∈ fillColumn vs, x.isSome = true) := by
  constructor
  · intro h
    have hnil : vs.filterMap id = [] :=
      List.filterMap_eq_nil_iff.mpr (fun a ha => by rw [h a ha]; rfl)
    have hm : colMedian vs = none := by
      unfold colMedian
      rw [hnil]
      rfl
    unfold fillColumn
    rw [hm]
    have hcell : ∀ v ∈ vs, fillCell v none = v := by
      intro v _
      cases v <;> rfl
    rw [List.map_congr_left hcell]
    exact List.map_id _
  · rintro ⟨v, hv, hsome⟩ x hx
    obtain ⟨w, hw⟩ := Option.isSome_iff_exists.mp hsome
    have hmem : w ∈ vs.filterMap id :=
      List.mem_filterMap.mpr ⟨v, hv, by rw [hw]; rfl⟩
    have hm : ∃ m, colMedian vs = some m := by
      unfold colMedian median
      dsimp only
      have hne : (vs.filterMap id).length ≠ 0 := by
        intro h0
        rw [List.length_eq_zero] at h0
        rw [h0] at hmem
        exact List.not_mem_nil w hmem
      have hlen : (List.insertionSort (fun a b : ℚ => a ≤ b)
          (vs.filterMap id)).length = (vs.filterMap id).length :=
        (List.perm_insertionSort _ _).length_eq
      rw [hlen]
      simp only [hne, if_false]
      by_cases hodd : (vs.filterMap id).length % 2 = 1
      · rw [if_pos hodd]
        exact ⟨_, rfl⟩
      · rw [if_neg hodd]
        exact ⟨_, rfl⟩
    obtain ⟨m, hm⟩ := hm
    unfold fillColumn at hx
    obtain ⟨u, humem, hue⟩ := List.mem_map.mp hx
    rw [← hue, hm]
    cases u <;> rfl

/-- Witness for C10: an all-missing column stays missing, and a column
with a present value has none missing after imputation. -/
theorem all_missing_column_stays_missing_witness :
    fillColumn [(none : Option ℚ)] = [none] ∧
    (∀ x ∈ fillColumn [some (1 : ℚ), none], x.isSome = true) :=
  ⟨(all_missing_column_stays_missing [none]).1 (by simp),
   (all_missing_column_stays_missing [some 1, none]).2
     ⟨some 1, by simp⟩⟩

/-- Projection of an enriched row to its day-of-week and weekend columns. -/
def dwProj (e : ERow) : Nat × Nat :=
  (e.dayOfWeek, e.weekend)

theorem preprocessTable_map_dwProj (df : Df) :
    (preprocessTable df).map dwProj =
      df.rows.map (fun r =>
        (dayOfWeekOfDays r.startDays,
         weekendFlag (dayOfWeekOfDays r.startDays))) := by
  unfold preprocessTable imputeAll fillSeverity fillLat fillLng fillTemp fillVis
  rw [addWeatherCat_map_proj df.hasWeather dwProj (fun r v => rfl)]
  cases df.hasTemp
  · rw [if_neg (by simp)]
    rw [fillVia_map_proj (fun r => r.startLng) (fun r v => { r with startLng := v }) dwProj (fun r v => rfl)]
    rw [fillVia_map_proj (fun r => r.startLat) (fun r v => { r with startLat := v }) dwProj (fun r v => rfl)]
    rw [fillVia_map_proj (fun r => r.severity) (fun r v => { r with severity := v }) dwProj (fun r v => rfl)]
    exact enrichTime_map_raw dwProj
      (fun r => (dayOfWeekOfDays r.startDays,
        weekendFlag (dayOfWeekOfDays r.startDays))) (fun r => rfl) df.rows
  · rw [if_pos rfl]
    rw [fillVia_map_proj (fun r => r.vis) (fun r v => { r with vis := v }) dwProj (fun r v => rfl)]
    rw [fillVia_map_proj (fun r => r.temp) (fun r v => { r with temp := v }) dwProj (fun r v => rfl)]
    rw [fillVia_map_proj (fun r => r.startLng) (fun r v => { r with startLng := v }) dwProj (fun r v => rfl)]
    rw [fillVia_map_proj (fun r => r.startLat) (fun r v => { r with startLat := v }) dwProj (fun r v => rfl)]
    rw [fillVia_map_proj (fun r => r.severity) (fun r v => { r with severity := v }) dwProj (fun r v => rfl)]
    exact enrichTime_map_raw dwProj
      (fun r => (dayOfWeekOfDays r.startDays,
        weekendFlag (dayOfWeekOfDays r.startDays))) (fun r => rfl) df.rows

/-- C6: in every row of the preprocessed table, the weekend flag is 1
exactly when the derived day-of-week (Monday = 0) is 5 or 6. -/
theorem weekend_iff_dayOfWeek (df : Df) :
    ∀ e ∈ preprocessTable df,
      (e.weekend = 1 ↔ (e.dayOfWeek = 5 ∨ e.dayOfWeek = 6)) := by
  intro e he
  have hmem : dwProj e ∈ (preprocessTable df).map dwProj :=
    List.mem_map_of_mem dwProj he
  rw [preprocessTable_map_dwProj] at hmem
  obtain ⟨r, _, hr⟩ := List.mem_map.mp hmem
  have h1 : e.dayOfWeek = dayOfWeekOfDays r.startDays :=
    (congrArg Prod.fst hr).symm
  have h2 : e.weekend = weekendFlag (dayOfWeekOfDays r.startDays) :=
    (congrArg Prod.snd hr).symm
  have hlt : dayOfWeekOfDays r.startDays < 7 :=
    Nat.mod_lt _ (by norm_num)
  rw [h1, h2]
  unfold weekendFlag
  by_cases h5 : 5 ≤ dayOfWeekOfDays r.startDays
  · rw [if_pos h5]
    omega
  · rw [if_neg h5]
    omega

/-- Witness for C6 at a concrete one-row dataframe: the row starting on
1970-01-01 (a Thursday) has day-of-week 3 and weekend flag 0. -/
theorem weekend_iff_dayOfWeek_witness :
    ({ id := "A-1", state := "OH", city := "Dayton", severity := none,
       startLat := none, startLng := none, temp := none, vis := none,
       startDays := 0, weatherCond := none, dayOfWeek := 3, weekend := 0,
       weatherCat := none } : ERow) ∈
      preprocessTable
        { rows := [{ id := "A-1", state := "OH", city := "Dayton",
                     severity := none, startLat := none, startLng := none,
                     temp := none, vis := none, startDays := 0,
                     weatherCond := none }],
          hasTemp := false, hasWeather := false, hasCity := false } ∧
    (({ id := "A-1", state := "OH", city := "Dayton", severity := none,
        startLat := none, startLng := none, temp := none, vis := none,
        startDays := 0, weatherCond := none, dayOfWeek := 3, weekend := 0,
        weatherCat := none } : ERow).weekend = 1 ↔
      (({ id := "A-1", state := "OH", city := "Dayton", severity := none,
          startLat := none, startLng := none, temp := none, vis := none,
          startDays := 0, weatherCond := none, dayOfWeek := 3, weekend := 0,
          weatherCat := none } : ERow).dayOfWeek = 5 ∨
        ({ id := "A-1", state := "OH", city := "Dayton", severity := none,
           startLat := none, startLng := none, temp := none, vis := none,
           startDays := 0, weatherCond := none, dayOfWeek := 3, weekend := 0,
           weatherCat := none } : ERow).dayOfWeek = 6)) :=
  ⟨by decide,
   weekend_iff_dayOfWeek
     { rows := [{ id := "A-1", state := "OH", city := "Dayton",
                  severity := none, startLat := none, startLng := none,
                  temp := none, vis := none, startDays := 0,
                  weatherCond := none }],
       hasTemp := false, hasWeather := false, hasCity := false }
     _ (by decide)⟩

/-! Section: Claim theorems: loader and writer -/

theorem shuffleGo_length {α : Type} :
    ∀ (fuel s : Nat) (l : List α), l.length ≤ fuel →
      (shuffleGo fuel s l).length = l.length := by
  intro fuel
  induction fuel with
  | zero =>
      intro s l h
      cases l with
      | nil => rfl
      | cons x xs => simp at h
  | succ n ih =>
      intro s l h
      cases l with
      | nil => rfl
      | cons x xs =>
          show ((x :: xs).getD _ x ::
            shuffleGo n (lcg s) ((x :: xs).eraseIdx (s % (x :: xs).length))).length = _
          rw [List.length_cons]
          have hi : s % (x :: xs).length < (x :: xs).length :=
            Nat.mod_lt _ (by simp)
          have herase : ((x :: xs).eraseIdx (s % (x :: xs).length)).length =
              (x :: xs).length - 1 :=
            List.length_eraseIdx_of_lt hi
          rw [ih (lcg s) _ (by rw [herase]; simp at h ⊢; omega), herase]
          simp

theorem shuffle_length {α : Type} (seed : Nat) (l : List α) :
    (shuffle seed l).length = l.length :=
  shuffleGo_length l.length seed l (Nat.le_refl _)

theorem sampleN_length {α : Type} (seed n : Nat) (l : List α) (h : n ≤ l.length) :
    (sampleN seed n l).length = n := by
  unfold sampleN
  rw [List.length_take, shuffle_length]
  omega

/-- C3: when the enriched table has more than 100000 rows, the writer
emits the sample file with exactly 100000 rows, and the written output is
a function of the input table alone (the seed is fixed), so two runs on
the same table write identical files. -/
theorem sample_file_exact_and_deterministic (main : List ERow)
    (h : 100000 < main.length) :
    (save_processed_data main).1 = "accidents_sample.csv" ∧
    (save_processed_data main).2.length = 100000 ∧
    (∀ other : List ERow, other = main →
      save_processed_data other = save_processed_data main) := by
  refine ⟨?_, ?_, fun other hother => by rw [hother]⟩
  · unfold save_processed_data
    rw [if_pos h]
  · unfold save_processed_data
    rw [if_pos h]
    exact sampleN_length 42 100000 main (Nat.le_of_lt h)

/-- Witness for C3 at a concrete table of 100001 identical rows. -/
theorem sample_file_exact_and_deterministic_witness :
    (save_processed_data (List.replicate 100001
        ({ id := "", state := "", city := "", severity := none,
           startLat := none, startLng := none, temp := none, vis := none,
           startDays := 0, weatherCond := none, dayOfWeek := 3,
           weekend := 0, weatherCat := none } : ERow))).2.length = 100000 :=
  (sample_file_exact_and_deterministic _
    (by rw [List.length_replicate]; omega)).2.1

theorem preprocessTable_rows_eta (df : Df) :
    preprocessTable { df with rows := df.rows } = preprocessTable df :=
  rfl

/-- C7: for an existing input file under the 1 GB size threshold and a
table of at most 100000 rows, the pipeline writes the processed file, and
it has exactly as many rows as the input dataset (no stage drops or adds
rows). -/
theorem processed_file_preserves_row_count (fe : Bool) (sz : Nat) (df : Df)
    (h1 : fe = true) (h2 : sz ≤ 10 ^ 9) (h3 : df.rows.length ≤ 100000) :
    mainPipeline fe sz df =
      Except.ok ("accidents_processed.csv", preprocessTable df) ∧
    (preprocessTable df).length = df.rows.length := by
  subst h1
  unfold mainPipeline load_raw_data
  rw [if_neg (by simp)]
  rw [if_neg (Nat.not_lt.mpr h2)]
  refine ⟨?_, preprocessTable_length df⟩
  show Except.ok (save_processed_data (preprocessTable { df with rows := df.rows })) = _
  rw [preprocessTable_rows_eta]
  unfold save_processed_data
  rw [if_neg (by rw [preprocessTable_length]; omega)]

/-- Witness for C7 at a concrete one-row dataframe. -/
theorem processed_file_preserves_row_count_witness :
    mainPipeline true 0
        { rows := [{ id := "A-1", state := "OH", city := "Dayton",
                     severity := none, startLat := none, startLng := none,
                     temp := none, vis := none, startDays := 0,
                     weatherCond := none }],
          hasTemp := false, hasWeather := false, hasCity := false } =
      Except.ok ("accidents_processed.csv",
        preprocessTable
          { rows := [{ id := "A-1", state := "OH", city := "Dayton",
                       severity := none, startLat := none, startLng := none,
                       temp := none, vis := none, startDays := 0,
                       weatherCond := none }],
            hasTemp := false, hasWeather := false, hasCity := false }) :=
  (processed_file_preserves_row_count true 0 _ rfl (by norm_num) (by simp)).1

/-- C9: the pipeline fails exactly when the input file does not exist;
the failure is the missing-input-file error with its descriptive message,
propagated unchanged to the pipeline result (there is no retry: the error
value returned by the loader is the pipeline's result). -/
theorem missing_input_file_error (sz : Nat) (df : Df) :
    (∀ fe : Bool, (mainPipeline fe sz df).isOk = fe) ∧
    mainPipeline false sz df = Except.error notFoundMsg ∧
    containsSub notFoundMsg.data "Dataset file not found".data = true := by
  refine ⟨?_, ?_, by decide⟩
  · intro fe
    cases fe
    · rfl
    · unfold mainPipeline load_raw_data
      rw [if_neg (by simp)]
      rfl
  · rfl

/-! Section: Claim theorems: weather mapping -/

/-- Counterexample to C1: `map_weather` does not return `"snow"` for
`"Freezing Rain"`: the category `rain` precedes `snow` in table order and
its keyword `"rain"` occurs in `"freezing rain"`, so `rain` is the first
matching category. -/
theorem freezing_rain_not_snow :
    ¬ (map_weather (some "Freezing Rain") = "snow") := by
  decide

/-- C1 (amended): for the input string `"Freezing Rain"`, the
weather-category mapping returns `"rain"`, this being the first matching
category in table order. -/
theorem freezing_rain_maps_to_rain :
    map_weather (some "Freezing Rain") = "rain" := by
  decide

/-- C2: `map_weather` behaves exactly as the spec describes it — missing
value to `"unknown"`, otherwise lowercase and return the first category of
the 7-entry table one of whose keywords occurs as a substring, with
`"other"` when none matches; in particular `"CLEAR"` maps to `"clear"` and
`"tornado"` to `"other"`. -/
theorem map_weather_follows_spec :
    (∀ c : Option String, map_weather c = map_weather_spec c) ∧
    map_weather (some "CLEAR") = "clear" ∧
    map_weather (some "tornado") = "other" := by
  refine ⟨?_, by decide, by decide⟩
  intro c
  cases c with
  | none => rfl
  | some s =>
      show matchCategories weather_mapping (lowerStr s) = _
      rw [matchCategories_eq_find]
      rfl
